import Mathlib

/-!
Shallow embedding of the TriviaAPI backend (`backend/flaskr/__init__.py`):
the pagination engine, the search filter, the quiz picker and the
delete endpoint, together with theorems checking the specification's
claims about them.
-/

/-- Number of questions per page (`QUESTIONS_PER_PAGE = 10`). -/
def QUESTIONS_PER_PAGE : Nat := 10

/-- A row of the questions table (`models.Question`): id, question text,
answer text, category reference, difficulty. Texts are lists of
characters so that case folding and substring containment are
elementwise. -/
structure Question where
  id : Nat
  question : List Char
  answer : List Char
  category : Int
  difficulty : Nat
  deriving Repr, DecidableEq

/-- A row of the categories table (`models.Category`): id and display
name (`type`). -/
structure Category where
  id : Int
  type : List Char
  deriving Repr, DecidableEq

/-- Modelled from the spec: `Question.format` lives in `models.py`, which
is not under `src/`; per the spec's data model it serializes the record's
fields unchanged (`{id, question, answer, category, difficulty}`). -/
structure FormattedQuestion where
  id : Nat
  question : List Char
  answer : List Char
  category : Int
  difficulty : Nat
  deriving Repr, DecidableEq

/-- Modelled from the spec: the serialization performed by
`question.format()` in `models.py` (not under `src/`) — a field-for-field
copy of the record. -/
def Question.format (q : Question) : FormattedQuestion :=
  { id := q.id, question := q.question, answer := q.answer,
    category := q.category, difficulty := q.difficulty }

/-- The database state the endpoints read: the questions table and the
categories table. -/
structure Store where
  questions : List Question
  categories : List Category
  deriving Repr

/-- Ordering used by `order_by(Question.id)`. -/
def leById (a b : Question) : Prop := a.id ≤ b.id

instance : DecidableRel leById := fun a b => inferInstanceAs (Decidable (a.id ≤ b.id))

instance : IsTotal Question leById := ⟨fun a b => Nat.le_total a.id b.id⟩

instance : IsTrans Question leById := ⟨fun _ _ _ h h' => Nat.le_trans h h'⟩

/-- Embedding of `Question.query.order_by(Question.id).all()`: the questions table
sorted by ascending id. -/
def orderById (l : List Question) : List Question :=
  List.insertionSort leById l

/-- Embedding of `paginate_questions(request, selection)` (lines 12-20):
`start = (page-1)*10`,
`end = start+10`, formats every question of the selection and returns the
Python slice `questions[start:end]` (which clips to the bounds). -/
def paginate_questions (page : Nat) (selection : List Question) : List FormattedQuestion :=
  let start := (page - 1) * QUESTIONS_PER_PAGE
  let stop := start + QUESTIONS_PER_PAGE
  let questions := selection.map Question.format
  (questions.take stop).drop start

theorem paginate_eq_drop_take (page : Nat) (selection : List Question) :
    paginate_questions page selection
      = ((selection.map Question.format).drop ((page - 1) * QUESTIONS_PER_PAGE)).take
          QUESTIONS_PER_PAGE := by
  unfold paginate_questions
  rw [List.drop_take]
  simp

/-- Ordering used by `order_by(Category.id)`. -/
def leCatById (a b : Category) : Prop := a.id ≤ b.id

instance : DecidableRel leCatById := fun a b => inferInstanceAs (Decidable (a.id ≤ b.id))

instance : IsTotal Category leCatById := ⟨fun a b => Int.le_total a.id b.id⟩

instance : IsTrans Category leCatById := ⟨fun _ _ _ h h' => Int.le_trans h h'⟩

/-- Embedding of `get_categories()` (lines 22-26): the categories table
ordered by id, read as the
mapping `{category.id: category.type}`. -/
def get_categories (store : Store) : List (Int × List Char) :=
  (List.insertionSort leCatById store.categories).map (fun c => (c.id, c.type))

/-- Embedding of the SQL pattern match
`Question.question.ilike("%{}%".format(search))` (line 152): the search
term is contained in the question text up to letter case. The spec fixes
the contract to pure case-insensitive substring containment (§4.3, "no
tokenization, no ranking"); LIKE metacharacter behaviour belongs to the
out-of-scope ORM/SQL collaborator. -/
def ilikeContains (term text : List Char) : Bool :=
  decide ((term.map Char.toLower) <:+: (text.map Char.toLower))

/-- The search selection of the POST `/questions` search branch
(lines 151-152): questions ordered by id and filtered to those whose
text matches `%term%` case-insensitively. -/
def searchSelection (store : Store) (term : List Char) : List Question :=
  (orderById store.questions).filter (fun q => ilikeContains term q.question)

/-- The JSON body of the successful listing/search responses:
`{questions, totalQuestions, categories}`. -/
structure ListResponse where
  questions : List FormattedQuestion
  totalQuestions : Nat
  categories : List (Int × List Char)
  deriving Repr, DecidableEq

/-- GET `/questions` (`retrive_questions`, lines 81-96): order all
questions by id, paginate, abort 404 when the page is empty, otherwise
answer with the page, the total count and the categories mapping. The
`Except` error carries the aborted HTTP status. -/
def retrive_questions (store : Store) (page : Nat) : Except Nat ListResponse :=
  let selection := orderById store.questions
  let current_questions := paginate_questions page selection
  if current_questions.length = 0 then
    Except.error 404
  else
    Except.ok
      { questions := current_questions,
        totalQuestions := store.questions.length,
        categories := get_categories store }

/-- The JSON body of POST `/questions`: either a new-question payload or
a search payload; `none` fields are absent keys (`body.get(…, None)`). -/
structure CreateBody where
  question : Option (List Char)
  answer : Option (List Char)
  category : Option Int
  difficulty : Option Nat
  search : Option (List Char)
  deriving Repr

/-- Outcome of POST `/questions` (`create_question`, lines 140-179): the
truthiness test `if search:` routes to the search branch; a falsy search
field routes to the question-creation branch, which no claim exercises
and which is therefore left abstract. -/
inductive PostQuestionsResult where
  | searchRoute (response : Except Nat ListResponse)
  | createRoute
  deriving Repr

/-- POST `/questions` (`create_question`): with a truthy `search` field
the endpoint filters by `%search%` (case-insensitive), paginates, and
answers `{categories, questions, totalQuestions}` where the total counts
the whole selection (`len(selection.all())`, line 160). Nothing in the
search branch raises, so the surrounding `try/except abort(422)` never
fires there. -/
def create_question (store : Store) (body : CreateBody) (page : Nat) : PostQuestionsResult :=
  match body.search with
  | none => PostQuestionsResult.createRoute
  | some s =>
    if s.isEmpty then
      PostQuestionsResult.createRoute
    else
      let selection := searchSelection store s
      let current_questions := paginate_questions page selection
      PostQuestionsResult.searchRoute
        (Except.ok
          { questions := current_questions,
            totalQuestions := selection.length,
            categories := get_categories store })

/-- Embedding of
`Question.query.filter(Question.id == question_id).one_or_none()`:
no row gives `none`, one row gives it, several raise
(`MultipleResultsFound`), modelled as the error case. -/
def one_or_none (l : List Question) : Except Unit (Option Question) :=
  match l with
  | [] => Except.ok none
  | [q] => Except.ok (some q)
  | _ => Except.error ()

/-- DELETE `/questions/{id}` (`delete_question`, lines 105-116). The
whole body sits in `try: … except: abort(422)`. `abort(404)` raises an
`HTTPException`, which the bare `except` also catches, so the missing-id
path ends in 422. The success path has no `return` statement: the view
produces no response body, modelled as `Except.ok none`. -/
def delete_question (store : Store) (question_id : Nat) : Except Nat (Option ListResponse) :=
  match one_or_none (store.questions.filter (fun q => q.id == question_id)) with
  | Except.error _ => Except.error 422
  | Except.ok none => Except.error 422
  | Except.ok (some _) => Except.ok none

/-- The JSON body of POST `/quizzes` (`play_quiz`, lines 219-247).
`quiz_category_id` models `int(body["quiz_category"]["id"])`: `none` when
a key is missing, `some none` when the value does not parse as an
integer, `some (some n)` when it parses to `n`. `previous_questions` is
`none` when the key is missing. -/
structure QuizBody where
  quiz_category_id : Option (Option Int)
  previous_questions : Option (List Nat)
  deriving Repr

/-- The eligible-question query of `play_quiz` (lines 227-236): with a
resolved category, the questions of that category not among the previous
ones (the `notin_` filter being applied only when `previous_questions`
is non-empty); with no resolved category, the same over all questions. -/
def quizQuestions (store : Store) (category : Option Category) (previous : List Nat) :
    List Question :=
  match category with
  | some c =>
    if 0 < previous.length then
      store.questions.filter (fun q => !(previous.contains q.id) && q.category == c.id)
    else
      store.questions.filter (fun q => q.category == c.id)
  | none =>
    if 0 < previous.length then
      store.questions.filter (fun q => !(previous.contains q.id))
    else
      store.questions

/-- The selection tail of `play_quiz` (lines 237-241):
`max = len(questions) - 1`; when `max > 0` the question at the random
index (`random.randint(0, max)`, passed in as `rand`) is formatted, and
an out-of-range index would raise (caught as a 500 by the handler);
otherwise the response carries `False`, modelled as `none`. -/
def quizPick (questions : List Question) (rand : Nat) : Except Nat (Option FormattedQuestion) :=
  if 0 < questions.length - 1 then
    match questions[rand]? with
    | some q => Except.ok (some q.format)
    | none => Except.error 500
  else
    Except.ok none

/-- POST `/quizzes` (`play_quiz`): read the category id and the previous
questions from the body (a missing key or an unparsable id raises and is
caught by `except: abort(500, …)`), resolve the category with
`Category.query.get` (`find?` on the table, `None` when absent), query
the eligible questions and pick one. -/
def play_quiz (store : Store) (body : QuizBody) (rand : Nat) :
    Except Nat (Option FormattedQuestion) :=
  match body.quiz_category_id with
  | none => Except.error 500
  | some none => Except.error 500
  | some (some cid) =>
    let category := store.categories.find? (fun c => c.id == cid)
    match body.previous_questions with
    | none => Except.error 500
    | some previous => quizPick (quizQuestions store category previous) rand

/-- A JSON error body `{success, message}`. -/
structure ErrorBody where
  success : Bool
  message : String
  deriving Repr, DecidableEq

/-- Modelled from the spec: the error handlers that `create_app`'s final
`@TODO` (lines 250-256) leaves unwritten. Per the spec (§7) and the
repository's tests, the 404 handler answers
`{success: false, message: "Resource Not Found"}`; the 422 handler
answers `{success: false}` with no pinned message. -/
def error_handler (status : Nat) : ErrorBody :=
  if status == 404 then { success := false, message := "Resource Not Found" }
  else { success := false, message := "" }

/-- An HTTP response as the client sees it: either a success body or a
status code with the error handler's body. -/
inductive HttpOutcome (α : Type) where
  | ok (body : α)
  | err (status : Nat) (body : ErrorBody)
  deriving Repr

/-- GET `/questions` composed with the (spec-modelled) error handlers:
what the client receives. -/
def retrive_questions_http (store : Store) (page : Nat) : HttpOutcome ListResponse :=
  match retrive_questions store page with
  | Except.ok r => HttpOutcome.ok r
  | Except.error s => HttpOutcome.err s (error_handler s)

/-- C2: for every sequence of questions and every page ≥ 1,
`paginate_questions` returns exactly the slice
`items[(page-1)*10 : (page-1)*10 + 10]` clipped to the bounds: the
element at position `i` of the result is the element at position
`(page-1)*10 + i` of the (formatted) input when `i < 10` and nothing
otherwise, and a start index at or beyond the input's length yields the
empty sequence. -/
theorem paginate_questions_slice (items : List Question) (page : Nat) (hp : 1 ≤ page) :
    (items.length ≤ (page - 1) * QUESTIONS_PER_PAGE → paginate_questions page items = [])
      ∧ ∀ i : Nat,
          (paginate_questions page items)[i]?
            = if i < QUESTIONS_PER_PAGE then
                (items.map Question.format)[(page - 1) * QUESTIONS_PER_PAGE + i]?
              else none := by
  rw [paginate_eq_drop_take]
  constructor
  · intro hlen
    rw [List.drop_eq_nil_of_le (by simpa using hlen)]
    simp
  · intro i
    by_cases hi : i < QUESTIONS_PER_PAGE
    · rw [if_pos hi, List.getElem?_take_of_lt hi, List.getElem?_drop]
    · rw [if_neg hi, List.getElem?_take_eq_none (Nat.le_of_not_lt hi)]

/-- Witness for C2 at a concrete page. -/
theorem paginate_questions_slice_witness :
    1 ≤ 2
      ∧ (([] : List Question).length ≤ (2 - 1) * QUESTIONS_PER_PAGE →
          paginate_questions 2 [] = [])
      ∧ ∀ i : Nat,
          (paginate_questions 2 ([] : List Question))[i]?
            = if i < QUESTIONS_PER_PAGE then
                (([] : List Question).map Question.format)[(2 - 1) * QUESTIONS_PER_PAGE + i]?
              else none :=
  ⟨by decide, paginate_questions_slice [] 2 (by decide)⟩

/-- C3: every page has length at most 10, and the concatenation of pages
1..k of a fixed source is exactly the first `10·k` elements of the
(formatted) source, in order. -/
theorem paginate_questions_pages (items : List Question) (page k : Nat) (hp : 1 ≤ page) :
    (paginate_questions page items).length ≤ QUESTIONS_PER_PAGE
      ∧ ((List.range k).map (fun j => paginate_questions (j + 1) items)).flatten
          = (items.map Question.format).take (QUESTIONS_PER_PAGE * k) := by
  constructor
  · rw [paginate_eq_drop_take]
    exact List.length_take_le _ _
  · induction k with
    | zero => simp
    | succ n ih =>
      rw [List.range_succ, List.map_append, List.flatten_append, ih]
      have hmul : QUESTIONS_PER_PAGE * (n + 1) = QUESTIONS_PER_PAGE * n + QUESTIONS_PER_PAGE :=
        Nat.mul_succ _ _
      rw [hmul, List.take_add]
      simp [paginate_eq_drop_take, Nat.mul_comm]

/-- Witness for C3 at a concrete page and k. -/
theorem paginate_questions_pages_witness :
    1 ≤ 1
      ∧ (paginate_questions 1 ([] : List Question)).length ≤ QUESTIONS_PER_PAGE
      ∧ ((List.range 3).map (fun j => paginate_questions (j + 1) ([] : List Question))).flatten
          = (([] : List Question).map Question.format).take (QUESTIONS_PER_PAGE * 3) :=
  ⟨by decide, paginate_questions_pages [] 1 3 (by decide)⟩

theorem mem_orderById (l : List Question) (q : Question) : q ∈ orderById l ↔ q ∈ l :=
  (List.perm_insertionSort leById l).mem_iff

theorem sorted_orderById (l : List Question) : (orderById l).Pairwise leById :=
  List.sorted_insertionSort leById l

theorem sorted_searchSelection (store : Store) (term : List Char) :
    (searchSelection store term).Pairwise (fun a b => a.id ≤ b.id) :=
  List.Pairwise.sublist (List.filter_sublist _) (sorted_orderById store.questions)

/-- C7: for every non-empty search term, the search selection holds
exactly the questions whose text contains the term as a case-insensitive
contiguous substring, it is ordered by id ascending, and strictly so
whenever the stored ids are pairwise distinct (as a primary key makes
them). -/
theorem searchSelection_characterization (store : Store) (term : List Char) (h : term ≠ []) :
    (∀ q : Question,
        q ∈ searchSelection store term ↔
          q ∈ store.questions ∧ (term.map Char.toLower) <:+: (q.question.map Char.toLower))
      ∧ (searchSelection store term).Pairwise (fun a b => a.id ≤ b.id)
      ∧ ((store.questions.map Question.id).Nodup →
          (searchSelection store term).Pairwise (fun a b => a.id < b.id)) := by
  refine ⟨fun q => ?_, sorted_searchSelection store term, fun hnd => ?_⟩
  · unfold searchSelection
    rw [List.mem_filter, mem_orderById, ilikeContains]
    simp
  · have hle := sorted_searchSelection store term
    have hsub : List.Sublist ((searchSelection store term).map Question.id)
        ((orderById store.questions).map Question.id) :=
      (List.filter_sublist _).map Question.id
    have hperm : ((orderById store.questions).map Question.id).Perm
        (store.questions.map Question.id) :=
      (List.perm_insertionSort leById store.questions).map Question.id
    have hnd2 : ((searchSelection store term).map Question.id).Nodup :=
      hsub.nodup (hperm.nodup_iff.mpr hnd)
    have hne : (searchSelection store term).Pairwise (fun a b => a.id ≠ b.id) :=
      (List.pairwise_map).mp hnd2
    exact (hle.and hne).imp (fun hab => Nat.lt_of_le_of_ne hab.1 hab.2)

/-- A question whose text contains "tit" case-insensitively. -/
def qTitle : Question :=
  { id := 5, question := ['T', 'i', 't', 'l', 'e'], answer := ['a'], category := 1,
    difficulty := 1 }

/-- A question whose text does not contain "tit". -/
def qOther : Question :=
  { id := 2, question := ['o', 't', 'h', 'e', 'r'], answer := ['b'], category := 2,
    difficulty := 2 }

/-- A two-question store for the search witnesses. -/
def storeTitle : Store :=
  { questions := [qTitle, qOther], categories := [{ id := 1, type := ['S'] }] }

/-- The sample search term "tit". -/
def termTit : List Char := ['t', 'i', 't']

/-- Witness for C7 on a concrete two-question store. -/
theorem searchSelection_characterization_witness :
    termTit ≠ []
      ∧ ((∀ q : Question,
            q ∈ searchSelection storeTitle termTit ↔
              q ∈ storeTitle.questions
                ∧ (termTit.map Char.toLower) <:+: (q.question.map Char.toLower))
          ∧ (searchSelection storeTitle termTit).Pairwise (fun a b => a.id ≤ b.id)
          ∧ ((storeTitle.questions.map Question.id).Nodup →
              (searchSelection storeTitle termTit).Pairwise (fun a b => a.id < b.id))) :=
  ⟨by decide, searchSelection_characterization storeTitle termTit (by decide)⟩

/-- C8: a truthy search term that matches no question still routes to
the search branch and succeeds with an empty questions sequence (no
404): the search branch never aborts. -/
theorem create_question_search_no_match (store : Store) (body : CreateBody) (page : Nat)
    (s : List Char) (hs : body.search = some s) (hne : s.isEmpty = false)
    (hmatch : ∀ q ∈ store.questions, ilikeContains s q.question = false) :
    create_question store body page
      = PostQuestionsResult.searchRoute (Except.ok
          { questions := [], totalQuestions := 0, categories := get_categories store }) := by
  have hsel : searchSelection store s = [] := by
    unfold searchSelection
    rw [List.filter_eq_nil_iff]
    intro q hq
    simp [hmatch q ((mem_orderById store.questions q).mp hq)]
  unfold create_question
  rw [hs]
  simp [hne, hsel, paginate_questions]

/-- An unmatched search term. -/
def termZ : List Char := ['z']

/-- A search body carrying the term "z". -/
def bodySearchZ : CreateBody :=
  { question := none, answer := none, category := none, difficulty := none,
    search := some termZ }

/-- Witness for C8 on a concrete store and term. -/
theorem create_question_search_no_match_witness :
    bodySearchZ.search = some termZ
      ∧ termZ.isEmpty = false
      ∧ (∀ q ∈ storeTitle.questions, ilikeContains termZ q.question = false)
      ∧ create_question storeTitle bodySearchZ 1
          = PostQuestionsResult.searchRoute (Except.ok
              { questions := [], totalQuestions := 0, categories := get_categories storeTitle }) :=
  ⟨rfl, by decide, by decide,
    create_question_search_no_match storeTitle bodySearchZ 1 termZ rfl (by decide) (by decide)⟩

/-- C9: a page number whose paginated slice of the listing is empty makes
GET `/questions` answer 404 with body
`{success: false, message: "Resource Not Found"}`. -/
theorem retrive_questions_empty_page_404 (store : Store) (page : Nat)
    (h : paginate_questions page (orderById store.questions) = []) :
    retrive_questions_http store page
      = HttpOutcome.err 404 { success := false, message := "Resource Not Found" } := by
  unfold retrive_questions_http retrive_questions
  simp [h, error_handler]

/-- Witness for C9: an empty store has an empty first page. -/
theorem retrive_questions_empty_page_404_witness :
    paginate_questions 1 (orderById ({ questions := [], categories := [] } : Store).questions) = []
      ∧ retrive_questions_http { questions := [], categories := [] } 1
          = HttpOutcome.err 404 { success := false, message := "Resource Not Found" } :=
  ⟨by decide, retrive_questions_empty_page_404 { questions := [], categories := [] } 1 (by decide)⟩

/-- C4 (what the code does at the claim's input): deleting an id absent
from the store answers 422 — `abort(404)` is raised inside the `try`
block and the bare `except` catches it, aborting 422 instead. -/
theorem delete_question_missing_id (store : Store) (qid : Nat)
    (h : ∀ q ∈ store.questions, q.id ≠ qid) :
    delete_question store qid = Except.error 422 := by
  have hfil : store.questions.filter (fun q => q.id == qid) = [] := by
    rw [List.filter_eq_nil_iff]
    intro q hq
    simp [h q hq]
  unfold delete_question
  rw [hfil]
  rfl

/-- Witness for C4: id 3 is not stored. -/
theorem delete_question_missing_id_witness :
    (∀ q ∈ storeTitle.questions, q.id ≠ 3)
      ∧ delete_question storeTitle 3 = Except.error 422 :=
  ⟨by decide, delete_question_missing_id storeTitle 3 (by decide)⟩

/-- C5 (what the code does at the claim's input): deleting an id stored
exactly once succeeds, but the view function has no `return` statement,
so the success path carries no response body — in particular no
`{success: true}`. -/
theorem delete_question_success_no_body (store : Store) (qid : Nat)
    (h : (store.questions.filter (fun q => q.id == qid)).length = 1) :
    delete_question store qid = Except.ok none := by
  unfold delete_question
  cases hfil : store.questions.filter (fun q => q.id == qid) with
  | nil =>
    rw [hfil] at h
    simp at h
  | cons a t =>
    cases t with
    | nil => rfl
    | cons b t2 =>
      rw [hfil] at h
      simp at h

/-- Witness for C5: id 5 is stored exactly once. -/
theorem delete_question_success_no_body_witness :
    (storeTitle.questions.filter (fun q => q.id == 5)).length = 1
      ∧ delete_question storeTitle 5 = Except.ok none :=
  ⟨by decide, delete_question_success_no_body storeTitle 5 (by decide)⟩

/-- C1 (what the code does at the claim's input): when exactly one
question is eligible, `max = len(questions) - 1 = 0` fails the
`max > 0` guard and the quiz answers `False` (modelled `none`) instead
of the remaining candidate. -/
theorem play_quiz_single_eligible (store : Store) (cid : Int) (previous : List Nat) (rand : Nat)
    (h : (quizQuestions store (store.categories.find? (fun c => c.id == cid)) previous).length
        = 1) :
    play_quiz store
        { quiz_category_id := some (some cid), previous_questions := some previous } rand
      = Except.ok none := by
  unfold play_quiz quizPick
  simp [h]

/-- A store whose single question is the single eligible candidate. -/
def storeOneScience : Store :=
  { questions :=
      [{ id := 1, question := ['q'], answer := ['a'], category := 1, difficulty := 1 }],
    categories := [{ id := 1, type := ['S'] }] }

/-- Witness for C1: one eligible question, yet the quiz answers `False`. -/
theorem play_quiz_single_eligible_witness :
    (quizQuestions storeOneScience
        (storeOneScience.categories.find? (fun c => c.id == (1 : Int))) []).length = 1
      ∧ play_quiz storeOneScience
          { quiz_category_id := some (some 1), previous_questions := some [] } 0
        = Except.ok none :=
  ⟨by decide, play_quiz_single_eligible storeOneScience 1 [] 0 (by decide)⟩

/-- A category-1 question with id 16. -/
def q16 : Question :=
  { id := 16, question := ['p'], answer := ['a'], category := 1, difficulty := 1 }

/-- A category-1 question with id 17. -/
def q17 : Question :=
  { id := 17, question := ['r'], answer := ['b'], category := 1, difficulty := 2 }

/-- A category-1 question with id 18. -/
def q18 : Question :=
  { id := 18, question := ['s'], answer := ['c'], category := 1, difficulty := 3 }

/-- A category-1 question with id 19. -/
def q19 : Question :=
  { id := 19, question := ['t'], answer := ['d'], category := 1, difficulty := 4 }

/-- A store where category 1 holds exactly the three questions 16, 17
and 18. -/
def storeThreeScience : Store :=
  { questions := [q16, q17, q18], categories := [{ id := 1, type := ['S'] }] }

/-- C6 counterexample: this store gives category 1 at least three
questions including ids 16 and 17, yet the quiz call excluding {16, 17}
leaves exactly one candidate, the `max > 0` guard fails, and the
response carries `False` rather than any question. -/
theorem play_quiz_three_science_counterexample :
    3 ≤ (storeThreeScience.questions.filter (fun q => q.category == (1 : Int))).length
      ∧ (∃ q ∈ storeThreeScience.questions, q.id = 16 ∧ q.category = 1)
      ∧ (∃ q ∈ storeThreeScience.questions, q.id = 17 ∧ q.category = 1)
      ∧ ¬ ∃ fq : FormattedQuestion,
          play_quiz storeThreeScience
              { quiz_category_id := some (some 1), previous_questions := some [16, 17] } 0
            = Except.ok (some fq) := by
  refine ⟨by decide, by decide, by decide, ?_⟩
  rintro ⟨fq, hfq⟩
  have h0 : play_quiz storeThreeScience
      { quiz_category_id := some (some 1), previous_questions := some [16, 17] } 0
      = Except.ok none := rfl
  rw [h0] at hfq
  simp at hfq

theorem length_le_two_of_ids_16_17 (l : List Question)
    (hnd : (l.map Question.id).Nodup)
    (h : ∀ q ∈ l, q.id = 16 ∨ q.id = 17) : l.length ≤ 2 := by
  have hsub : (l.map Question.id) ⊆ [16, 17] := by
    intro x hx
    obtain ⟨q, hq, rfl⟩ := List.mem_map.mp hx
    rcases h q hq with h1 | h1 <;> simp [h1]
  have hle := (List.subperm_of_subset hnd hsub).length_le
  simpa using hle

/-- The eligible list of the C6 scenario: the category-1 questions whose
id is neither 16 nor 17 (the instantiation of `quizQuestions` at
category 1 and previous questions `[16, 17]`). -/
def quizEligible1 (store : Store) : List Question :=
  store.questions.filter
    (fun q => !(([16, 17] : List Nat).contains q.id) && q.category == (1 : Int))

theorem quizEligible1_getElem (store : Store) (i : Nat) (h : i < (quizEligible1 store).length) :
    (quizEligible1 store)[i].category = 1
      ∧ (quizEligible1 store)[i].id ≠ 16 ∧ (quizEligible1 store)[i].id ≠ 17 := by
  have hmem : (quizEligible1 store)[i] ∈ quizEligible1 store := List.getElem_mem h
  generalize hgen : (quizEligible1 store)[i] = q at hmem ⊢
  unfold quizEligible1 at hmem
  have hpred := (List.mem_filter.mp hmem).2
  rw [Bool.and_eq_true] at hpred
  obtain ⟨hnotin, hcat1⟩ := hpred
  refine ⟨by simpa using hcat1, ?_⟩
  simpa using hnotin

theorem quizEligible1_length (store : Store)
    (hnodup : (store.questions.map Question.id).Nodup)
    (h4 : 4 ≤ (store.questions.filter (fun q => q.category == (1 : Int))).length) :
    2 ≤ (quizEligible1 store).length := by
  have hsplit := List.length_eq_length_filter_add
    (l := store.questions.filter (fun q => q.category == (1 : Int)))
    (fun q => !(([16, 17] : List Nat).contains q.id))
  have hEA : (store.questions.filter (fun q => q.category == (1 : Int))).filter
      (fun q => !(([16, 17] : List Nat).contains q.id)) = quizEligible1 store := by
    rw [List.filter_filter]
    rfl
  have hBids : ∀ q ∈ (store.questions.filter (fun q => q.category == (1 : Int))).filter
      (fun q => !(!(([16, 17] : List Nat).contains q.id))), q.id = 16 ∨ q.id = 17 := by
    intro q hq
    have hb := (List.mem_filter.mp hq).2
    simpa using hb
  have hBnd : (((store.questions.filter (fun q => q.category == (1 : Int))).filter
      (fun q => !(!(([16, 17] : List Nat).contains q.id)))).map Question.id).Nodup := by
    refine List.Nodup.sublist (List.Sublist.map Question.id ?_) hnodup
    exact (List.filter_sublist _).trans (List.filter_sublist _)
  have hB2 := length_le_two_of_ids_16_17 _ hBnd hBids
  rw [hEA] at hsplit
  omega

/-- C6 amended: in every store with pairwise-distinct question ids whose
category table resolves id 1 and where category 1 has at least four
questions including ids 16 and 17, the quiz call with category 1 and
excluded `{16, 17}` answers, for every index the random draw can
produce, a question of category 1 whose id is neither 16 nor 17. -/
theorem play_quiz_category1_excluding (store : Store) (rand : Nat)
    (hnodup : (store.questions.map Question.id).Nodup)
    (hcat : (store.categories.find? (fun c => c.id == (1 : Int))).isSome)
    (h16 : ∃ q ∈ store.questions, q.id = 16 ∧ q.category = 1)
    (h17 : ∃ q ∈ store.questions, q.id = 17 ∧ q.category = 1)
    (h4 : 4 ≤ (store.questions.filter (fun q => q.category == (1 : Int))).length)
    (hrand : rand ≤
        (quizQuestions store (store.categories.find? (fun c => c.id == (1 : Int)))
            [16, 17]).length - 1) :
    ∃ fq : FormattedQuestion,
      play_quiz store
          { quiz_category_id := some (some 1), previous_questions := some [16, 17] } rand
        = Except.ok (some fq)
      ∧ fq.category = 1 ∧ fq.id ≠ 16 ∧ fq.id ≠ 17 := by
  obtain ⟨c, hc⟩ := Option.isSome_iff_exists.mp hcat
  have hc1 : c.id = 1 := by
    have hp := List.find?_some hc
    simpa using hp
  have hE : quizQuestions store (some c) [16, 17] = quizEligible1 store := by
    simp [quizQuestions, hc1, quizEligible1]
  have hlenE := quizEligible1_length store hnodup h4
  rw [hc, hE] at hrand
  have hlt : rand < (quizEligible1 store).length := by omega
  have hgt : 0 < (quizEligible1 store).length - 1 := by omega
  obtain ⟨hcatv, hid16, hid17⟩ := quizEligible1_getElem store rand hlt
  have hred : play_quiz store
      { quiz_category_id := some (some 1), previous_questions := some [16, 17] } rand
      = quizPick (quizQuestions store (store.categories.find? (fun c => c.id == (1 : Int)))
          [16, 17]) rand := rfl
  refine ⟨(quizEligible1 store)[rand].format, ?_, by simp [Question.format, hcatv],
    by simp [Question.format, hid16], by simp [Question.format, hid17]⟩
  rw [hred, hc, hE]
  unfold quizPick
  rw [if_pos hgt, List.getElem?_eq_getElem hlt]

/-- A store where category 1 holds the four questions 16, 17, 18, 19. -/
def storeFourScience : Store :=
  { questions := [q16, q17, q18, q19], categories := [{ id := 1, type := ['S'] }] }

/-- Witness for the amended C6 on a concrete four-question store. -/
theorem play_quiz_category1_excluding_witness :
    (storeFourScience.questions.map Question.id).Nodup
      ∧ (storeFourScience.categories.find? (fun c => c.id == (1 : Int))).isSome
      ∧ (∃ q ∈ storeFourScience.questions, q.id = 16 ∧ q.category = 1)
      ∧ (∃ q ∈ storeFourScience.questions, q.id = 17 ∧ q.category = 1)
      ∧ 4 ≤ (storeFourScience.questions.filter (fun q => q.category == (1 : Int))).length
      ∧ 0 ≤ (quizQuestions storeFourScience
            (storeFourScience.categories.find? (fun c => c.id == (1 : Int))) [16, 17]).length - 1
      ∧ ∃ fq : FormattedQuestion,
          play_quiz storeFourScience
              { quiz_category_id := some (some 1), previous_questions := some [16, 17] } 0
            = Except.ok (some fq)
          ∧ fq.category = 1 ∧ fq.id ≠ 16 ∧ fq.id ≠ 17 :=
  ⟨by decide, by decide, by decide, by decide, by decide, by decide,
    play_quiz_category1_excluding storeFourScience 0 (by decide) (by decide) (by decide)
      (by decide) (by decide) (by decide)⟩

/-- C10: a category id that parses but resolves to no stored category
does not make the quiz fail: the outcome is exactly the pick over all
questions minus the exclusions, it coincides with the outcome for any
other unresolved id (such as 0, the frontend's "ALL"), and for every
index the random draw can produce it is a success response. -/
theorem play_quiz_unknown_category (store : Store) (cid aid : Int) (previous : List Nat)
    (rand : Nat)
    (hc : store.categories.find? (fun c => c.id == cid) = none)
    (ha : store.categories.find? (fun c => c.id == aid) = none)
    (hrand : rand ≤ (quizQuestions store none previous).length - 1) :
    play_quiz store { quiz_category_id := some (some cid), previous_questions := some previous }
          rand
        = quizPick (quizQuestions store none previous) rand
      ∧ play_quiz store
            { quiz_category_id := some (some cid), previous_questions := some previous } rand
          = play_quiz store
              { quiz_category_id := some (some aid), previous_questions := some previous } rand
      ∧ ∃ resp, play_quiz store
            { quiz_category_id := some (some cid), previous_questions := some previous } rand
          = Except.ok resp := by
  have h1 : play_quiz store
      { quiz_category_id := some (some cid), previous_questions := some previous } rand
      = quizPick (quizQuestions store none previous) rand := by
    have hred : play_quiz store
        { quiz_category_id := some (some cid), previous_questions := some previous } rand
        = quizPick (quizQuestions store (store.categories.find? (fun c => c.id == cid))
            previous) rand := rfl
    rw [hred, hc]
  have h2 : play_quiz store
      { quiz_category_id := some (some aid), previous_questions := some previous } rand
      = quizPick (quizQuestions store none previous) rand := by
    have hred : play_quiz store
        { quiz_category_id := some (some aid), previous_questions := some previous } rand
        = quizPick (quizQuestions store (store.categories.find? (fun c => c.id == aid))
            previous) rand := rfl
    rw [hred, ha]
  refine ⟨h1, h1.trans h2.symm, ?_⟩
  rw [h1]
  unfold quizPick
  by_cases hlen : 0 < (quizQuestions store none previous).length - 1
  · have hlt : rand < (quizQuestions store none previous).length := by omega
    rw [if_pos hlen, List.getElem?_eq_getElem hlt]
    exact ⟨_, rfl⟩
  · rw [if_neg hlen]
    exact ⟨none, rfl⟩

/-- A store holding a single category-2 question and only category 2. -/
def storeCatTwo : Store :=
  { questions :=
      [{ id := 1, question := ['q'], answer := ['a'], category := 2, difficulty := 1 }],
    categories := [{ id := 2, type := ['A'] }] }

/-- Witness for C10: category id 7 resolves to nothing, and the call
behaves as with the unresolved id 0. -/
theorem play_quiz_unknown_category_witness :
    storeCatTwo.categories.find? (fun c => c.id == (7 : Int)) = none
      ∧ storeCatTwo.categories.find? (fun c => c.id == (0 : Int)) = none
      ∧ 0 ≤ (quizQuestions storeCatTwo none []).length - 1
      ∧ (play_quiz storeCatTwo
            { quiz_category_id := some (some 7), previous_questions := some [] } 0
          = quizPick (quizQuestions storeCatTwo none []) 0
        ∧ play_quiz storeCatTwo
              { quiz_category_id := some (some 7), previous_questions := some [] } 0
            = play_quiz storeCatTwo
                { quiz_category_id := some (some 0), previous_questions := some [] } 0
        ∧ ∃ resp, play_quiz storeCatTwo
              { quiz_category_id := some (some 7), previous_questions := some [] } 0
            = Except.ok resp) :=
  ⟨by decide, by decide, by decide,
    play_quiz_unknown_category storeCatTwo 7 0 [] 0 (by decide) (by decide) (by decide)⟩
